import Mathlib

/-!
Formal model of the `nigeria-economic-dashboard` repository.

The development shallowly embeds the two source files
`nigeria_data_processor.py` and `nigeria_dashboard_app.py`:

* pandas DataFrames become association lists from column names to lists
  of cell values;
* numpy 64-bit floats become either exact rationals (where a claim does
  not depend on non-finite values) or the `PyFloat` type, which extends
  the rationals with `inf`, `-inf` and `nan` so that division by zero
  can be modelled the way numpy performs it (a warning plus a non-finite
  result, never an exception);
* Python string/`int()` manipulation is modelled on lists of characters;
* fallible steps (pandas `astype`, column lookup, `int()` parsing)
  return `Except`/`Option` values.

Python's `str()` of a non-integral float and scientific-notation float
literals are outside the scope of the claims and are modelled by a
deterministic placeholder rendering; no theorem below depends on them.
-/

namespace Nigeria

/-- Decidable whitespace test used by Python's `int()`/`float()`, which
strip surrounding whitespace before parsing. -/
def isSpaceChar (c : Char) : Bool :=
  c == ' ' || c == '\t' || c == '\n' || c == '\r'

/-- Strip leading and trailing whitespace from a character list. -/
def trimChars (s : List Char) : List Char :=
  ((s.dropWhile isSpaceChar).reverse.dropWhile isSpaceChar).reverse

/-- Numeric value of a list of decimal digit characters (no validity
check; callers validate first). -/
def natOfDigits (l : List Char) : ℕ :=
  l.foldl (fun a c => a * 10 + (c.toNat - 48)) 0

/-- Parse a nonempty all-digit character list as a natural number,
`none` otherwise. Models the digit-run part of Python's `int()`. -/
def digitsToNat (l : List Char) : Option ℕ :=
  if l ≠ [] ∧ l.all Char.isDigit then some (natOfDigits l) else none

/-- Model of Python's `int(s)` on a string `s`: optional surrounding
whitespace, an optional single sign, then a nonempty run of decimal
digits. -/
def pyIntOfChars (s : List Char) : Option ℤ :=
  match trimChars s with
  | '-' :: rest => (digitsToNat rest).map (fun n => -(n : ℤ))
  | '+' :: rest => (digitsToNat rest).map (fun n => (n : ℤ))
  | t => (digitsToNat t).map (fun n => (n : ℤ))

/-- Unsigned part of Python's `float(s)`: digits, an optional decimal
point and fractional digits; at least one digit overall. -/
def pyUnsignedFloat (s : List Char) : Option ℚ :=
  let ip := s.takeWhile Char.isDigit
  let rest := s.dropWhile Char.isDigit
  match rest with
  | [] => if ip.isEmpty then none else some (natOfDigits ip)
  | '.' :: fp =>
      if (ip.isEmpty && fp.isEmpty) || !(fp.all Char.isDigit) then none
      else some ((natOfDigits ip : ℚ) + (natOfDigits fp : ℚ) / (10 : ℚ) ^ fp.length)
  | _ => none

/-- Model of Python's `float(s)` (plain decimal notation; exponent forms
are unused by the repository's data path and left unmodelled). -/
def pyFloatOfChars (s : List Char) : Option ℚ :=
  match trimChars s with
  | '-' :: rest => (pyUnsignedFloat rest).map Neg.neg
  | '+' :: rest => pyUnsignedFloat rest
  | t => pyUnsignedFloat t

/-- Floor of a rational, computed with integer floor division. -/
def ratFloor (q : ℚ) : ℤ :=
  Int.fdiv q.num q.den

/-- Round a rational to the nearest integer, ties to even — the rounding
used by Python's fixed-point `format` (and hence by every `:.Nf`
f-string in the dashboard). -/
def roundHalfEven (q : ℚ) : ℤ :=
  let f := ratFloor q
  let r := q - (f : ℚ)
  if r < 1 / 2 then f
  else if 1 / 2 < r then f + 1
  else if f % 2 = 0 then f else f + 1

/-- Render a natural number below 100 with exactly two digits. -/
def twoDigits (n : ℕ) : String :=
  if n < 10 then "0" ++ toString n else toString n

/-- Model of the Python f-string `f"{q:.2f}"` on an exact value `q`:
round `100 * q` half-to-even and print with two decimal places, keeping
the sign of the input (so `-0.001` renders as `"-0.00"`, as in Python). -/
def fmt2 (q : ℚ) : String :=
  let n := roundHalfEven (q * 100)
  let mag := n.natAbs
  let body := toString (mag / 100) ++ "." ++ twoDigits (mag % 100)
  if q < 0 then "-" ++ body else body

/-- IEEE-style double value as numpy produces it: an exact finite value,
a signed infinity, or `nan`. Signed zero is not distinguished (the
repository never branches on it). -/
inductive PyFloat where
  | finite (q : ℚ)
  | inf
  | negInf
  | nan
deriving DecidableEq

/-- Model of numpy float64 subtraction. -/
def PyFloat.sub : PyFloat → PyFloat → PyFloat
  | .nan, _ => .nan
  | _, .nan => .nan
  | .finite a, .finite b => .finite (a - b)
  | .finite _, .inf => .negInf
  | .finite _, .negInf => .inf
  | .inf, .finite _ => .inf
  | .negInf, .finite _ => .negInf
  | .inf, .inf => .nan
  | .inf, .negInf => .inf
  | .negInf, .inf => .negInf
  | .negInf, .negInf => .nan

/-- Model of numpy float64 division: division by (positive) zero yields
a signed infinity, `0/0` yields `nan`, and no exception is raised. -/
def PyFloat.div : PyFloat → PyFloat → PyFloat
  | .nan, _ => .nan
  | _, .nan => .nan
  | .finite a, .finite b =>
      if b = 0 then (if a = 0 then .nan else if 0 < a then .inf else .negInf)
      else .finite (a / b)
  | .finite _, .inf => .finite 0
  | .finite _, .negInf => .finite 0
  | .inf, .finite b => if 0 ≤ b then .inf else .negInf
  | .negInf, .finite b => if 0 ≤ b then .negInf else .inf
  | .inf, .inf => .nan
  | .inf, .negInf => .nan
  | .negInf, .inf => .nan
  | .negInf, .negInf => .nan

/-- Model of numpy float64 multiplication. -/
def PyFloat.mul : PyFloat → PyFloat → PyFloat
  | .nan, _ => .nan
  | _, .nan => .nan
  | .finite a, .finite b => .finite (a * b)
  | .finite a, .inf => if a = 0 then .nan else if 0 < a then .inf else .negInf
  | .finite a, .negInf => if a = 0 then .nan else if 0 < a then .negInf else .inf
  | .inf, .finite b => if b = 0 then .nan else if 0 < b then .inf else .negInf
  | .negInf, .finite b => if b = 0 then .nan else if 0 < b then .negInf else .inf
  | .inf, .inf => .inf
  | .inf, .negInf => .negInf
  | .negInf, .inf => .negInf
  | .negInf, .negInf => .inf

/-- Model of `f"{x:.2f}"` on a float64, handling non-finite values the
way Python's fixed-point formatting does (`"inf"`, `"-inf"`, `"nan"`). -/
def PyFloat.fmt : PyFloat → String
  | .finite q => fmt2 q
  | .inf => "inf"
  | .negInf => "-inf"
  | .nan => "nan"

example : fmt2 (5 / 2) = "2.50" := by with_unfolding_all decide
example : fmt2 (-1 / 100) = "-0.01" := by with_unfolding_all decide
example : roundHalfEven (5 / 2) = 2 := by with_unfolding_all decide
example : roundHalfEven (7 / 2) = 4 := by with_unfolding_all decide
example : pyIntOfChars "1999".data = some 1999 := by decide
example : pyIntOfChars "-5".data = some (-5) := by decide
example : pyIntOfChars "99.0".data = none := by decide
example : pyFloatOfChars "2.5".data = some (5 / 2) := by with_unfolding_all decide

/-- Cell of a pandas DataFrame as `read_csv` / the cleaning steps produce
it: a 64-bit integer, a finite 64-bit float (exact rational), the float
`NaN` used as pandas' missing-value marker, or an object/string. -/
inductive Value where
  | vInt (n : ℤ)
  | vFloat (q : ℚ)
  | vNaN
  | vStr (s : String)
deriving DecidableEq

/-- A pandas DataFrame, modelled as its list of columns in order: each
column is a name paired with the list of cell values down the rows. -/
structure DataFrame where
  cols : List (String × List Value)
deriving DecidableEq

/-- Column selection `df[name]`: the first column with the given label,
`none` modelling a pandas `KeyError`. -/
def getCol (df : DataFrame) (name : String) : Option (List Value) :=
  (df.cols.find? (fun p => p.1 == name)).map Prod.snd

/-- Column assignment `df[name] = vs`: replace the values of an existing
column in place, or append a new column (pandas semantics). -/
def setCol (df : DataFrame) (name : String) (vs : List Value) : DataFrame :=
  if (getCol df name).isSome then
    ⟨df.cols.map (fun p => if p.1 = name then (p.1, vs) else p)⟩
  else
    ⟨df.cols ++ [(name, vs)]⟩

/-- The `rename_columns` mapping of `load_and_process_data`
(`nigeria_data_processor.py`, lines 28-45), copied verbatim including
the trailing spaces in several source header names. -/
def rename_columns : List (String × String) :=
  [ ("Year", "Year"),
    ("Fertility Rate", "Fertility Rate"),
    ("GDP (current US$)", "GDP (US$)"),
    ("GDP Growth (annual %)", "GDP Growth (%)"),
    ("Life Expectancy (Years)", "Life Expectancy"),
    ("Female Population (% Total)", "Female Population (%)"),
    ("Male Population (% Total)", "Male Population (%)"),
    ("Population Growth (annual %)", "Population Growth (%)"),
    ("Urban Population Growth (annual %)", "Urban Growth (%)"),
    ("Rural Population Growth (annual %)", "Rural Growth (%)"),
    ("Employment to population ratio, 15+, total (%) ", "Employment Ratio (%)"),
    ("Employment to population ratio, 15+, male (%) ", "Male Employment (%)"),
    ("Employment to population ratio, 15+, female (%)", "Female Employment (%)"),
    ("Unemployment, female (% of female labor force) ", "Female Unemployment (%)"),
    ("Unemployment, male (% of male labor force)", "Male Unemployment (%)"),
    ("Unemployment, total (% of total labor force) ", "Unemployment (%)") ]

/-- Renaming of a single header: mapped headers get their display name,
unmapped headers pass through unchanged (pandas `rename` is not strict). -/
def applyRename (c : String) : String :=
  (List.lookup c rename_columns).getD c

/-- The `df.rename(columns=rename_columns)` step (line 48). -/
def renameStep (df : DataFrame) : DataFrame :=
  ⟨df.cols.map (fun p => (applyRename p.1, p.2))⟩

/-- Python's `str(x)` on a DataFrame cell. `str` of a non-integral float
uses Python's shortest-repr algorithm, which the claims never touch; it
is rendered here by a deterministic `num/den` placeholder. -/
def pyStrOfValue : Value → String
  | .vInt n => toString n
  | .vStr s => s
  | .vNaN => "nan"
  | .vFloat q =>
      if q.den = 1 then toString q.num ++ ".0"
      else toString q.num ++ "/" ++ toString q.den

/-- Python's slice `s[-4:]` on a character list: the last four
characters, or the whole string when it is shorter than four. -/
def takeLast4 (s : List Char) : List Char :=
  s.drop (s.length - 4)

/-- The year normalization `int(str(x)[-4:])` on the string form
(line 52 of `nigeria_data_processor.py`). -/
def yearFromChars (s : List Char) : Option ℤ :=
  pyIntOfChars (takeLast4 s)

/-- The year normalization applied to a raw cell `x`. -/
def yearFromToken (v : Value) : Option ℤ :=
  yearFromChars (pyStrOfValue v).data

/-- The elementwise `.apply` of the year normalization over a column:
the first unparseable token aborts with a `ValueError`. -/
def yearMapTokens (vs : List Value) : Except String (List Value) :=
  vs.mapM (fun v =>
    match yearFromToken v with
    | some n => Except.ok (Value.vInt n)
    | none => Except.error "ValueError: invalid literal for int with base 10")

/-- The `df["Year"] = df["Year"].apply(lambda x: int(str(x)[-4:]))` step
(lines 50-52): `KeyError` when `Year` is absent, `ValueError` when any
token fails to parse. -/
def yearStep (df : DataFrame) : Except String DataFrame :=
  match getCol df "Year" with
  | none => .error "KeyError: Year"
  | some vs =>
      match yearMapTokens vs with
      | .error e => .error e
      | .ok vs' => .ok (setCol df "Year" vs')

/-- Target dtype of a column in the `astype` step. -/
inductive DType where
  | int64
  | float64
deriving DecidableEq

/-- Truncation of a rational toward zero, as numpy's float-to-int64 cast
performs it. -/
def truncRat (q : ℚ) : ℤ :=
  if 0 ≤ q then ratFloor q else -(ratFloor (-q))

/-- The `convert_dtype` mapping of `load_and_process_data` (lines
55-72), copied verbatim: note the key `"Population Growth"`, which is
not one of the display names produced by `rename_columns`. -/
def convert_dtype : List (String × DType) :=
  [ ("Year", .int64),
    ("Fertility Rate", .float64),
    ("GDP (US$)", .float64),
    ("GDP Growth (%)", .float64),
    ("Life Expectancy", .float64),
    ("Female Population (%)", .float64),
    ("Male Population (%)", .float64),
    ("Population Growth", .float64),
    ("Urban Growth (%)", .float64),
    ("Rural Growth (%)", .float64),
    ("Employment Ratio (%)", .float64),
    ("Male Employment (%)", .float64),
    ("Female Employment (%)", .float64),
    ("Female Unemployment (%)", .float64),
    ("Male Unemployment (%)", .float64),
    ("Unemployment (%)", .float64) ]

/-- Cast of a single cell to a target dtype, following pandas/numpy
`astype`: numeric strings parse, non-numeric strings raise, `NaN` is
preserved by a float cast but raises on an integer cast, and a
float-to-int cast silently truncates toward zero. -/
def castValue (v : Value) (dt : DType) : Except String Value :=
  match dt with
  | .float64 =>
      match v with
      | .vInt n => .ok (.vFloat n)
      | .vFloat q => .ok (.vFloat q)
      | .vNaN => .ok .vNaN
      | .vStr s =>
          match pyFloatOfChars s.data with
          | some q => .ok (.vFloat q)
          | none => .error ("ValueError: could not convert string to float: " ++ s)
  | .int64 =>
      match v with
      | .vInt n => .ok (.vInt n)
      | .vFloat q => .ok (.vInt (truncRat q))
      | .vNaN => .error "ValueError: cannot convert non-finite values to integer"
      | .vStr s =>
          match pyIntOfChars s.data with
          | some n => .ok (.vInt n)
          | none => .error ("ValueError: invalid literal for int with base 10: " ++ s)

/-- The `df = df.astype(convert_dtype)` step (line 75). pandas first
requires every key of the dtype mapping to be a column of the frame
(`KeyError` otherwise), then casts exactly the mapped columns, leaving
unmapped columns untouched. -/
def astypeStep (df : DataFrame) : Except String DataFrame :=
  match (convert_dtype.map Prod.fst).find? (fun k => (getCol df k).isNone) with
  | some k => .error ("KeyError: " ++ k)
  | none => do
      let cols ← df.cols.mapM (fun p =>
        match List.lookup p.1 convert_dtype with
        | some dt => do
            let vs ← p.2.mapM (fun v => castValue v dt)
            pure (p.1, vs)
        | none => pure p)
      pure (DataFrame.mk cols)

/-- The GDP reformatting step
`df['GDP (US$)'] = df['GDP (US$)'].apply(lambda x: float(f"{x:.0f}"))`
(line 78): each float is rounded half-to-even to a whole number; `nan`
formats to `"nan"` and parses back to `nan`. -/
def gdpStep (df : DataFrame) : Except String DataFrame :=
  match getCol df "GDP (US$)" with
  | none => .error "KeyError: GDP (US$)"
  | some vs => do
      let vs' ← vs.mapM (fun v =>
        match v with
        | .vFloat q => Except.ok (Value.vFloat (roundHalfEven q))
        | .vNaN => Except.ok Value.vNaN
        | .vInt n => Except.ok (Value.vFloat n)
        | .vStr _ => Except.error "ValueError: unsupported format string passed to str")
      .ok (setCol df "GDP (US$)" vs')

/-- Test `df["Year"] == 2023` on one `Year` cell. After the cast step
the year is an `int64`, but the float case is kept for totality (pandas
compares numerically). -/
def yearIs2023 (y : Value) : Bool :=
  match y with
  | .vInt n => n = 2023
  | .vFloat q => q = 2023
  | _ => false

/-- Test `df[column] == 0` on one cell: numeric zero compares equal,
`NaN` and strings do not. -/
def isZeroValue (v : Value) : Bool :=
  match v with
  | .vInt n => n = 0
  | .vFloat q => q = 0
  | _ => false

/-- Replacement performed on one cell by the 2023 data-quality patch:
a zero in a 2023 row becomes `NaN`, everything else is untouched. -/
def maskCell (y v : Value) : Value :=
  if yearIs2023 y && isZeroValue v then .vNaN else v

/-- The patch applied to one indicator column, aligned row-by-row with
the `Year` column. -/
def maskCol (years vs : List Value) : List Value :=
  List.zipWith maskCell years vs

/-- The zero-masking loop of lines 80-83: for every column except
`Year`, entries of rows with `Year == 2023` that equal zero are replaced
with `np.nan`. -/
def mask2023 (df : DataFrame) : Except String DataFrame :=
  match getCol df "Year" with
  | none => .error "KeyError: Year"
  | some years =>
      .ok ⟨df.cols.map (fun p => if p.1 = "Year" then p else (p.1, maskCol years p.2))⟩

/-- The full `load_and_process_data` pipeline (file reading aside): the
input is the parsed CSV as a DataFrame, the output the prepared table or
the exception that aborts loading. -/
def load_and_process_data (csv : DataFrame) : Except String DataFrame :=
  match yearStep (renameStep csv) with
  | .error e => .error e
  | .ok df1 =>
      match astypeStep df1 with
      | .error e => .error e
      | .ok df2 =>
          match gdpStep df2 with
          | .error e => .error e
          | .ok df3 => mask2023 df3

/-- The `end_before_start` helper of `nigeria_dashboard_app.py`
(lines 18-29): `True` if the end year is before the start year. -/
def end_before_start (start_year end_year : ℤ) : Bool :=
  decide (start_year > end_year)

/-- Outcome of the range check in `main` (lines 219-222): either the
validation message `st.error(...)` alone, or the dashboard views. -/
inductive MainView where
  | validationMessage
  | dashboard
deriving DecidableEq

/-- The branch of `main` on the selected years: when
`end_before_start` holds only the validation message is shown, otherwise
`display_dashboard` renders the views. -/
def mainView (start_year end_year : ℤ) : MainView :=
  if end_before_start start_year end_year then .validationMessage else .dashboard

/-- The `min_max_normalize` helper (lines 32-48), on the numeric series
`data[indicator]`: scale by `(x - min) / (max - min)` unless the series
is constant (`max - min == 0`), in which case it is returned unchanged. -/
def min_max_normalize (data : List ℚ) : List ℚ :=
  match data.min?, data.max? with
  | some min_val, some max_val =>
      if max_val - min_val = 0 then data
      else data.map (fun x => (x - min_val) / (max_val - min_val))
  | _, _ => data

/-- The `format_large_numbers` helper (lines 51-68). -/
def format_large_numbers (value : ℚ) : String :=
  if value ≥ 1000000000 then fmt2 (value / 1000000000) ++ " Billion"
  else if value ≥ 1000000 then fmt2 (value / 1000000) ++ " Million"
  else if value ≥ 1000 then fmt2 (value / 1000) ++ " Thousand"
  else fmt2 value

/-- The comparison-view delta of `display_dashboard` (lines 111-131):
with the endpoint lookups already reduced to optional float values,
the metric's delta is shown only when the end value is present, is
`None` when the start value is missing, and otherwise formats
`(final - initial) / initial * 100` with two decimals and a percent
sign — with no guard against a zero start value. -/
def comparisonDelta (initial_value final_value : Option PyFloat) : Option String :=
  match final_value with
  | none => none
  | some fv =>
      match initial_value with
      | none => none
      | some iv => some ((((fv.sub iv).div iv).mul (.finite 100)).fmt ++ "%")

/-- Default X-axis indicator of the relationship view (line 159). -/
def default_x : String := "GDP (US$)"

/-- Default Y-axis indicator of the relationship view (line 160). -/
def default_y : String := "Population Growth"

/-- Python's `list.index(x)`: position of the first occurrence, `none`
modelling the `ValueError` raised when `x` does not occur. -/
def pyListIndex (l : List String) (x : String) : Option ℕ :=
  match l with
  | [] => none
  | a :: t => if a = x then some 0 else (pyListIndex t x).map (· + 1)

/-- The two `index` positions computed for the relationship view's
select boxes (lines 163-174): `related_indicators.index(default_x)` is
evaluated first, then `related_indicators.index(default_y)`; `none`
models the uncaught `ValueError` that aborts the view. -/
def relationshipDefaults (related_indicators : List String) : Option (ℕ × ℕ) :=
  match pyListIndex related_indicators default_x with
  | none => none
  | some i =>
      match pyListIndex related_indicators default_y with
      | none => none
      | some j => some (i, j)

/-- Entry `i` of a masked column is the mask of the aligned entries of
the `Year` column and the original column. -/
theorem maskCol_get? (years vs : List Value) (i : ℕ) :
    (maskCol years vs).get? i =
      match years.get? i, vs.get? i with
      | some y, some v => some (maskCell y v)
      | _, _ => none := by
  induction years generalizing vs i with
  | nil => cases vs <;> cases i <;> simp [maskCol]
  | cons y ys ih =>
    cases vs with
    | nil => cases i <;> simp [maskCol]
    | cons v vt =>
      cases i with
      | zero => simp [maskCol]
      | succ n => simpa [maskCol] using ih vt n

/-- A left fold by `min` lands on the seed or a list element, and is a
lower bound for the seed and every element. -/
theorem foldl_min_spec (l : List ℚ) :
    ∀ x : ℚ, (l.foldl min x = x ∨ l.foldl min x ∈ l) ∧
      l.foldl min x ≤ x ∧ ∀ b ∈ l, l.foldl min x ≤ b := by
  induction l with
  | nil => intro x; simp
  | cons y ys ih =>
    intro x
    obtain ⟨hmem, hle, hbound⟩ := ih (min x y)
    rw [List.foldl_cons]
    refine ⟨?_, le_trans hle (min_le_left x y), ?_⟩
    · rcases hmem with h1 | h1
      · rcases min_choice x y with hc | hc
        · left; rw [h1, hc]
        · right; rw [h1, hc]; exact List.mem_cons_self y ys
      · right; exact List.mem_cons_of_mem _ h1
    · intro b hb
      rcases List.mem_cons.mp hb with rfl | hb2
      · exact le_trans hle (min_le_right x b)
      · exact hbound b hb2

/-- A left fold by `max` lands on the seed or a list element, and is an
upper bound for the seed and every element. -/
theorem foldl_max_spec (l : List ℚ) :
    ∀ x : ℚ, (l.foldl max x = x ∨ l.foldl max x ∈ l) ∧
      x ≤ l.foldl max x ∧ ∀ b ∈ l, b ≤ l.foldl max x := by
  induction l with
  | nil => intro x; simp
  | cons y ys ih =>
    intro x
    obtain ⟨hmem, hle, hbound⟩ := ih (max x y)
    rw [List.foldl_cons]
    refine ⟨?_, le_trans (le_max_left x y) hle, ?_⟩
    · rcases hmem with h1 | h1
      · rcases max_choice x y with hc | hc
        · left; rw [h1, hc]
        · right; rw [h1, hc]; exact List.mem_cons_self y ys
      · right; exact List.mem_cons_of_mem _ h1
    · intro b hb
      rcases List.mem_cons.mp hb with rfl | hb2
      · exact le_trans (le_max_right x b) hle
      · exact hbound b hb2

/-- `Series.min()` returns an element that bounds the series below. -/
theorem min?_mem_le {l : List ℚ} {a : ℚ} (h : l.min? = some a) :
    a ∈ l ∧ ∀ b ∈ l, a ≤ b := by
  cases l with
  | nil => simp [List.min?] at h
  | cons x xs =>
    rw [List.min?_cons'] at h
    obtain ⟨hmem, hle, hbound⟩ := foldl_min_spec xs x
    cases Option.some.inj h
    constructor
    · rcases hmem with h1 | h1
      · rw [h1]; exact List.mem_cons_self x xs
      · exact List.mem_cons_of_mem _ h1
    · intro b hb
      rcases List.mem_cons.mp hb with rfl | hb2
      · exact hle
      · exact hbound b hb2

/-- `Series.max()` returns an element that bounds the series above. -/
theorem max?_mem_ge {l : List ℚ} {a : ℚ} (h : l.max? = some a) :
    a ∈ l ∧ ∀ b ∈ l, b ≤ a := by
  cases l with
  | nil => simp [List.max?] at h
  | cons x xs =>
    rw [List.max?_cons'] at h
    obtain ⟨hmem, hle, hbound⟩ := foldl_max_spec xs x
    cases Option.some.inj h
    constructor
    · rcases hmem with h1 | h1
      · rw [h1]; exact List.mem_cons_self x xs
      · exact List.mem_cons_of_mem _ h1
    · intro b hb
      rcases List.mem_cons.mp hb with rfl | hb2
      · exact hle
      · exact hbound b hb2

/-- `list.index` raises (returns `none`) exactly on absent elements. -/
theorem pyListIndex_not_mem {l : List String} {x : String} (h : x ∉ l) :
    pyListIndex l x = none := by
  induction l with
  | nil => rfl
  | cons a t ih =>
    rw [pyListIndex]
    have ha : ¬ a = x := fun hax => h (hax ▸ List.mem_cons_self a t)
    rw [if_neg ha, ih (fun hx => h (List.mem_cons_of_mem a hx))]
    rfl

/-- `list.index` of a present element returns a position holding it. -/
theorem pyListIndex_mem {l : List String} {x : String} (h : x ∈ l) :
    ∃ i, pyListIndex l x = some i ∧ l.get? i = some x := by
  induction l with
  | nil => simp at h
  | cons a t ih =>
    by_cases hax : a = x
    · exact ⟨0, by rw [pyListIndex, if_pos hax], by simp [hax]⟩
    · have hx : x ∈ t := by
        rcases List.mem_cons.mp h with h1 | h1
        · exact absurd h1.symm hax
        · exact h1
      obtain ⟨i, h1, h2⟩ := ih hx
      refine ⟨i + 1, ?_, by simpa using h2⟩
      rw [pyListIndex, if_neg hax, h1]
      rfl

/-- Assigning one column leaves every other column's lookup unchanged. -/
theorem getCol_setCol_ne (df : DataFrame) (name c : String) (vs : List Value)
    (h : c ≠ name) : getCol (setCol df name vs) c = getCol df c := by
  have hfst : ((fun p : String × List Value => p.1 == c) ∘
      (fun p : String × List Value => if p.1 = name then (p.1, vs) else p)) =
      (fun p : String × List Value => p.1 == c) := by
    funext p
    by_cases hp : p.1 = name <;> simp [hp]
  unfold setCol
  split_ifs with hs
  · show ((df.cols.map fun p => if p.1 = name then (p.1, vs) else p).find?
        (fun p => p.1 == c)).map Prod.snd = getCol df c
    rw [List.find?_map, hfst]
    unfold getCol
    cases hf : df.cols.find? (fun p => p.1 == c) with
    | none => rfl
    | some q =>
      have hq : q.1 = c := by simpa using List.find?_some hf
      have hqn : ¬ q.1 = name := by rw [hq]; exact h
      simp [hqn]
  · show ((df.cols ++ [(name, vs)]).find? (fun p => p.1 == c)).map Prod.snd = getCol df c
    rw [List.find?_append]
    have hnc : ¬ (name = c) := fun hh => h hh.symm
    have hone : ([(name, vs)].find? (fun p => p.1 == c)) = none := by
      have hb : (name == c) = false := beq_eq_false_iff_ne.mpr hnc
      simp [List.find?, hb]
    rw [hone]
    unfold getCol
    cases df.cols.find? (fun p => p.1 == c) <;> rfl

/-- A successful year-normalization step touches only the `Year`
column. -/
theorem yearStep_ok_getCol {df df' : DataFrame} (h : yearStep df = Except.ok df')
    {c : String} (hc : c ≠ "Year") : getCol df' c = getCol df c := by
  unfold yearStep at h
  split at h
  · exact Except.noConfusion h
  · split at h
    · exact Except.noConfusion h
    · cases Except.ok.inj h
      exact getCol_setCol_ne df "Year" c _ hc

/-- The cast step can only fail when one of the dtype-map keys is not a
column; in particular it never succeeds on a frame missing the
`Population Growth` column named in `convert_dtype`. -/
theorem astypeStep_missing_key {df : DataFrame}
    (h : getCol df "Population Growth" = none) :
    ∀ r, astypeStep df ≠ Except.ok r := by
  intro r hr
  unfold astypeStep at hr
  split at hr
  · exact Except.noConfusion hr
  · rename_i hfind
    have hmem : "Population Growth" ∈ convert_dtype.map Prod.fst := by decide
    have h2 := List.find?_eq_none.mp hfind "Population Growth" hmem
    rw [h] at h2
    exact h2 rfl

/-- A one-row source whose headers are exactly the documented schema:
the sixteen original World-Bank-style indicator headers plus `Year`
(spec section 4.1 step 2 / section 6; the CSV itself ships outside the
repository, so its headers are modelled from the spec). -/
def specSchemaSource : DataFrame :=
  ⟨[ ("Year", [Value.vInt 1999]),
     ("Fertility Rate", [Value.vFloat 2]),
     ("GDP (current US$)", [Value.vFloat (5 / 2)]),
     ("GDP Growth (annual %)", [Value.vFloat 2]),
     ("Life Expectancy (Years)", [Value.vFloat 2]),
     ("Female Population (% Total)", [Value.vFloat 2]),
     ("Male Population (% Total)", [Value.vFloat 2]),
     ("Population Growth (annual %)", [Value.vFloat 2]),
     ("Urban Population Growth (annual %)", [Value.vFloat 2]),
     ("Rural Population Growth (annual %)", [Value.vFloat 2]),
     ("Employment to population ratio, 15+, total (%) ", [Value.vFloat 2]),
     ("Employment to population ratio, 15+, male (%) ", [Value.vFloat 2]),
     ("Employment to population ratio, 15+, female (%)", [Value.vFloat 2]),
     ("Unemployment, female (% of female labor force) ", [Value.vFloat 2]),
     ("Unemployment, male (% of male labor force)", [Value.vFloat 2]),
     ("Unemployment, total (% of total labor force) ", [Value.vFloat 2]) ]⟩

/-- A two-row source whose headers do NOT match the documented schema:
`Population Growth (annual %)` is replaced by the bare
`Population Growth` and an unexpected `Extra Indicator` column is
appended. -/
def mismatchSource : DataFrame :=
  ⟨[ ("Year", [Value.vInt 2023, Value.vInt 1999]),
     ("Fertility Rate", [Value.vFloat 2, Value.vFloat 3]),
     ("GDP (current US$)", [Value.vFloat (5 / 2), Value.vFloat 0]),
     ("GDP Growth (annual %)", [Value.vFloat 2, Value.vFloat 2]),
     ("Life Expectancy (Years)", [Value.vFloat 2, Value.vFloat 2]),
     ("Female Population (% Total)", [Value.vFloat 2, Value.vFloat 2]),
     ("Male Population (% Total)", [Value.vFloat 2, Value.vFloat 2]),
     ("Population Growth", [Value.vFloat 0, Value.vFloat 2]),
     ("Urban Population Growth (annual %)", [Value.vFloat 2, Value.vFloat 2]),
     ("Rural Population Growth (annual %)", [Value.vFloat 2, Value.vFloat 2]),
     ("Employment to population ratio, 15+, total (%) ", [Value.vFloat 2, Value.vFloat 2]),
     ("Employment to population ratio, 15+, male (%) ", [Value.vFloat 2, Value.vFloat 2]),
     ("Employment to population ratio, 15+, female (%)", [Value.vFloat 2, Value.vFloat 2]),
     ("Unemployment, female (% of female labor force) ", [Value.vFloat 2, Value.vFloat 2]),
     ("Unemployment, male (% of male labor force)", [Value.vFloat 2, Value.vFloat 2]),
     ("Unemployment, total (% of total labor force) ", [Value.vFloat 2, Value.vFloat 2]),
     ("Extra Indicator", [Value.vFloat 7, Value.vFloat 8]) ]⟩

/-- The prepared table that `load_and_process_data` produces from
`mismatchSource`: display names where the rename map applied, the
unmapped `Population Growth` and `Extra Indicator` columns passed
through (the former with its 2023 zero masked to `NaN`), and the GDP
value `2.5` rounded to `2`. -/
def mismatchPrepared : DataFrame :=
  ⟨[ ("Year", [Value.vInt 2023, Value.vInt 1999]),
     ("Fertility Rate", [Value.vFloat 2, Value.vFloat 3]),
     ("GDP (US$)", [Value.vFloat 2, Value.vFloat 0]),
     ("GDP Growth (%)", [Value.vFloat 2, Value.vFloat 2]),
     ("Life Expectancy", [Value.vFloat 2, Value.vFloat 2]),
     ("Female Population (%)", [Value.vFloat 2, Value.vFloat 2]),
     ("Male Population (%)", [Value.vFloat 2, Value.vFloat 2]),
     ("Population Growth", [Value.vNaN, Value.vFloat 2]),
     ("Urban Growth (%)", [Value.vFloat 2, Value.vFloat 2]),
     ("Rural Growth (%)", [Value.vFloat 2, Value.vFloat 2]),
     ("Employment Ratio (%)", [Value.vFloat 2, Value.vFloat 2]),
     ("Male Employment (%)", [Value.vFloat 2, Value.vFloat 2]),
     ("Female Employment (%)", [Value.vFloat 2, Value.vFloat 2]),
     ("Female Unemployment (%)", [Value.vFloat 2, Value.vFloat 2]),
     ("Male Unemployment (%)", [Value.vFloat 2, Value.vFloat 2]),
     ("Unemployment (%)", [Value.vFloat 2, Value.vFloat 2]),
     ("Extra Indicator", [Value.vFloat 7, Value.vFloat 8]) ]⟩

/-- Frame used to instantiate the 2023 masking theorem: a `Year` column
`[2023, 2001]` and one indicator column holding zeros in both rows. -/
def maskDemo : DataFrame :=
  ⟨[("Year", [Value.vInt 2023, Value.vInt 2001]),
    ("Unemployment (%)", [Value.vFloat 0, Value.vFloat 0])]⟩

/-- Result of the 2023 masking step on `maskDemo`: only the zero in the
2023 row becomes `NaN`. -/
def maskDemoMasked : DataFrame :=
  ⟨[("Year", [Value.vInt 2023, Value.vInt 2001]),
    ("Unemployment (%)", [Value.vNaN, Value.vFloat 0])]⟩

/-- C1 (counterexample): the claim says the percent change is
null/omitted whenever the start value is exactly zero, never an
infinity; but with start value `0` and end value `150` the code
computes `(150 - 0) / 0 * 100` in float arithmetic, which numpy turns
into `inf` (a warning, not an exception), so the rendered delta is the
string `"inf%"`, not null. -/
theorem comparisonDelta_zero_start_inf :
    comparisonDelta (some (PyFloat.finite 0)) (some (PyFloat.finite 150)) =
      some "inf%" := by
  with_unfolding_all rfl

/-- C1 (amended): the delta of the comparison view is omitted when the
end value is missing and when the start value is missing; when both
endpoints are present and the start value is nonzero it is the percent
change `(final - initial) / initial * 100` formatted with two decimals
and a percent sign (`100 → 150` gives `"50.00%"`); but when the start
value is exactly zero the unguarded float division propagates to the
formatted strings `"inf%"`, `"-inf%"` or `"nan%"` instead of null. -/
theorem comparisonDelta_spec :
    (∀ x : Option PyFloat, comparisonDelta x none = none) ∧
    (∀ y : PyFloat, comparisonDelta none (some y) = none) ∧
    (∀ a b : ℚ, a ≠ 0 →
      comparisonDelta (some (PyFloat.finite a)) (some (PyFloat.finite b)) =
        some (fmt2 ((b - a) / a * 100) ++ "%")) ∧
    (∀ b : ℚ, 0 < b →
      comparisonDelta (some (PyFloat.finite 0)) (some (PyFloat.finite b)) =
        some "inf%") ∧
    (∀ b : ℚ, b < 0 →
      comparisonDelta (some (PyFloat.finite 0)) (some (PyFloat.finite b)) =
        some "-inf%") ∧
    comparisonDelta (some (PyFloat.finite 0)) (some (PyFloat.finite 0)) =
      some "nan%" ∧
    comparisonDelta (some (PyFloat.finite 100)) (some (PyFloat.finite 150)) =
      some "50.00%" := by
  have h100 : ((100 : ℚ) = 0) = False := by norm_num
  have h100' : ((0 : ℚ) < 100) = True := by norm_num
  refine ⟨fun x => rfl, fun y => rfl, ?_, ?_, ?_, by with_unfolding_all rfl,
    by with_unfolding_all rfl⟩
  · intro a b ha
    simp [comparisonDelta, PyFloat.sub, PyFloat.div, PyFloat.mul, PyFloat.fmt, ha]
  · intro b hb
    simp [comparisonDelta, PyFloat.sub, PyFloat.div, PyFloat.mul, PyFloat.fmt,
      sub_zero, hb.ne', hb, h100, h100']
  · intro b hb
    simp [comparisonDelta, PyFloat.sub, PyFloat.div, PyFloat.mul, PyFloat.fmt,
      sub_zero, hb.ne, not_lt.mpr hb.le, h100, h100']

/-- C1 (witness): the amended formatting branch applied at the concrete
endpoints 100 and 150. -/
theorem comparisonDelta_spec_witness :
    ((100 : ℚ) ≠ 0) ∧
    comparisonDelta (some (PyFloat.finite 100)) (some (PyFloat.finite 150)) =
      some (fmt2 (((150 : ℚ) - 100) / 100 * 100) ++ "%") :=
  ⟨by norm_num, comparisonDelta_spec.2.2.1 100 150 (by norm_num)⟩

/-- C2: the claim says that after preparation every non-`Year` column is
a 64-bit float and `Year` a 64-bit integer, with cast failures reported
as data-quality errors. The code cannot deliver this for any source
with the documented schema: `convert_dtype` names the column
`"Population Growth"`, while renaming produces
`"Population Growth (%)"`, so `df.astype(convert_dtype)` raises
`KeyError` before any value is cast — the well-formed one-row source
with the documented headers aborts the whole load. -/
theorem load_specSchema_keyError :
    load_and_process_data specSchemaSource =
      Except.error "KeyError: Population Growth" := by
  with_unfolding_all rfl

/-- C3: in the output of the 2023 masking step, every row whose `Year`
is 2023 has its zero entries (in columns other than `Year`) replaced by
the `NaN` missing-value marker — so no such column holds exactly zero —
while nonzero entries of 2023 rows, all entries of other rows, and the
`Year` column itself are unchanged. -/
theorem mask2023_spec (df df' : DataFrame) (years : List Value)
    (hy : getCol df "Year" = some years)
    (h : mask2023 df = Except.ok df') :
    ∀ j c vs, df.cols.get? j = some (c, vs) →
      (c = "Year" → df'.cols.get? j = some (c, vs)) ∧
      (c ≠ "Year" →
        df'.cols.get? j = some (c, maskCol years vs) ∧
        ∀ i y v, years.get? i = some y → vs.get? i = some v →
          (yearIs2023 y = true → isZeroValue v = true →
            (maskCol years vs).get? i = some Value.vNaN) ∧
          (yearIs2023 y = true → isZeroValue v = false →
            (maskCol years vs).get? i = some v) ∧
          (yearIs2023 y = true → ∀ v', (maskCol years vs).get? i = some v' →
            isZeroValue v' = false) ∧
          (yearIs2023 y = false → (maskCol years vs).get? i = some v)) := by
  unfold mask2023 at h
  rw [hy] at h
  cases Except.ok.inj h
  intro j c vs hj
  have hj' : (df.cols.map fun p =>
      if p.1 = "Year" then p else (p.1, maskCol years p.2)).get? j =
      some (if c = "Year" then (c, vs) else (c, maskCol years vs)) := by
    rw [List.get?_map, hj]
    rfl
  constructor
  · intro hcy
    show (df.cols.map fun p =>
      if p.1 = "Year" then p else (p.1, maskCol years p.2)).get? j = some (c, vs)
    rw [hj', if_pos hcy]
  · intro hcy
    constructor
    · show (df.cols.map fun p =>
        if p.1 = "Year" then p else (p.1, maskCol years p.2)).get? j =
        some (c, maskCol years vs)
      rw [hj', if_neg hcy]
    · intro i y v hyi hvi
      have hmc : (maskCol years vs).get? i = some (maskCell y v) := by
        rw [maskCol_get?, hyi, hvi]
      refine ⟨?_, ?_, ?_, ?_⟩
      · intro h23 hz
        rw [hmc]
        simp [maskCell, h23, hz]
      · intro h23 hz
        rw [hmc]
        simp [maskCell, h23, hz]
      · intro h23 v' hv'
        rw [hmc] at hv'
        cases Option.some.inj hv'
        cases hz : isZeroValue v <;>
          simp [maskCell, h23, hz, show isZeroValue Value.vNaN = false from rfl]
      · intro h23
        rw [hmc]
        simp [maskCell, h23]

/-- C3 (witness): the masking theorem applied to the concrete frame
`maskDemo`: the zero of the 2023 row becomes the missing-value marker. -/
theorem mask2023_spec_witness :
    (("Unemployment (%)" : String) ≠ "Year") ∧
    (maskCol [Value.vInt 2023, Value.vInt 2001]
      [Value.vFloat 0, Value.vFloat 0]).get? 0 = some Value.vNaN :=
  ⟨by decide,
    (((mask2023_spec maskDemo maskDemoMasked
        [Value.vInt 2023, Value.vInt 2001]
        (by with_unfolding_all rfl) (by with_unfolding_all rfl)
        1 "Unemployment (%)" [Value.vFloat 0, Value.vFloat 0]
        (by with_unfolding_all rfl)).2 (by decide)).2 0
        (Value.vInt 2023) (Value.vFloat 0) rfl rfl).1
      (by with_unfolding_all decide) (by with_unfolding_all decide)⟩

/-- C4 (counterexample): the claim says year normalization fails
whenever fewer than four characters remain, but Python's slice
`str(x)[-4:]` returns the whole string when it is shorter than four
characters, so the two-character token `99` normalizes successfully to
the year `99` instead of failing. -/
theorem yearFromToken_short_token :
    yearFromToken (Value.vInt 99) = some 99 := by decide

/-- C4 (amended): year normalization converts the token to a string,
keeps its last `min(4, length)` characters and parses them as an
integer: for tokens of length at least four the prepared year is the
numeric value of the exact four-character suffix, for shorter tokens the
whole token is parsed, and it fails exactly when that kept suffix is not
a valid integer literal. -/
theorem yearFromChars_spec :
    (∀ s : List Char, s.length < 4 → yearFromChars s = pyIntOfChars s) ∧
    (∀ s : List Char, 4 ≤ s.length →
      ∃ pre suf, s = pre ++ suf ∧ suf.length = 4 ∧
        yearFromChars s = pyIntOfChars suf) ∧
    yearFromChars "x1999".data = some 1999 ∧
    yearFromChars "20xx".data = none := by
  refine ⟨?_, ?_, by decide, by decide⟩
  · intro s h
    unfold yearFromChars takeLast4
    rw [Nat.sub_eq_zero_of_le (Nat.le_of_lt h), List.drop_zero]
  · intro s h
    refine ⟨s.take (s.length - 4), s.drop (s.length - 4),
      (List.take_append_drop _ s).symm, ?_, rfl⟩
    rw [List.length_drop]
    omega

/-- C4 (witness): the short-token branch applied to the two-character
string `"99"`, which parses as a whole. -/
theorem yearFromChars_spec_witness :
    ("99".data.length < 4) ∧ yearFromChars "99".data = pyIntOfChars "99".data :=
  ⟨by decide, yearFromChars_spec.1 "99".data (by decide)⟩

/-- C5 (counterexample): the claim says every source whose headers do
not match the expected schema fails fatally at load time with nothing
passed through; but `mismatchSource` — whose headers differ from the
documented schema in two places — loads successfully, and its unmapped
`Extra Indicator` column is silently passed through into the prepared
table. -/
theorem load_mismatched_schema_passes :
    mismatchSource.cols.map Prod.fst ≠ rename_columns.map Prod.fst ∧
    load_and_process_data mismatchSource = Except.ok mismatchPrepared :=
  ⟨by decide, by with_unfolding_all rfl⟩

/-- C5 (amended): loading performs no schema validation: renaming
passes every unmapped header through unchanged, a source with extra or
differently named columns loads successfully as long as each column
named in the dtype map is present (the unmapped columns, such as
`Extra Indicator`, surviving into the output), and a mismatch aborts
loading only indirectly, when a column required by the cast map — such
as `Population Growth` — is absent (a `KeyError` at the cast step, not
a schema check at rename time). -/
theorem load_no_schema_check :
    (∀ c : String, c ∉ rename_columns.map Prod.fst → applyRename c = c) ∧
    ((load_and_process_data mismatchSource).toOption.bind
      (fun df => getCol df "Extra Indicator") =
        some [Value.vFloat 7, Value.vFloat 8]) ∧
    (∀ csv : DataFrame, getCol (renameStep csv) "Population Growth" = none →
      ∀ df', load_and_process_data csv ≠ Except.ok df') := by
  refine ⟨?_, by with_unfolding_all rfl, ?_⟩
  · intro c hc
    unfold applyRename
    have hl : List.lookup c rename_columns = none := by
      rw [List.lookup_eq_none_iff]
      intro p hp
      exact bne_iff_ne.mpr (fun he => hc (he ▸ List.mem_map_of_mem Prod.fst hp))
    rw [hl]
    rfl
  · intro csv hcsv df' hload
    unfold load_and_process_data at hload
    split at hload
    · exact Except.noConfusion hload
    · rename_i df1 hy1
      split at hload
      · exact Except.noConfusion hload
      · rename_i df2 ha
        have h1 : getCol df1 "Population Growth" = none := by
          rw [yearStep_ok_getCol hy1 (by decide)]
          exact hcsv
        exact astypeStep_missing_key h1 df2 ha

/-- C5 (witness): the rename passthrough applied to the concrete
unmapped header `Extra Indicator`. -/
theorem load_no_schema_check_witness :
    ("Extra Indicator" ∉ rename_columns.map Prod.fst) ∧
    applyRename "Extra Indicator" = "Extra Indicator" :=
  ⟨by decide, load_no_schema_check.1 "Extra Indicator" (by decide)⟩

/-- C6 (counterexample): the claim says that when the default indicators
are absent from the list the view falls back to the first two indicators
by display order; but `list.index` raises `ValueError` on an absent
element — modelled by `none` — so for a list containing neither default
the view fails instead of falling back. -/
theorem relationshipDefaults_absent_fails :
    relationshipDefaults ["Fertility Rate", "Life Expectancy"] = none := by decide

/-- C6 (amended): the relationship view's selectors default to the
positions of `GDP (US$)` and `Population Growth` in the indicator list
when both occur; whenever either is absent the `list.index` lookup
raises (the view fails) — there is no fallback to the first two
indicators. -/
theorem relationshipDefaults_spec :
    (∀ rel : List String, default_x ∈ rel → default_y ∈ rel →
      ∃ i j, relationshipDefaults rel = some (i, j) ∧
        rel.get? i = some default_x ∧ rel.get? j = some default_y) ∧
    (∀ rel : List String, default_x ∉ rel ∨ default_y ∉ rel →
      relationshipDefaults rel = none) := by
  constructor
  · intro rel hx hy
    obtain ⟨i, hi1, hi2⟩ := pyListIndex_mem hx
    obtain ⟨j, hj1, hj2⟩ := pyListIndex_mem hy
    refine ⟨i, j, ?_, hi2, hj2⟩
    unfold relationshipDefaults
    rw [hi1, hj1]
  · intro rel h
    unfold relationshipDefaults
    cases h with
    | inl h => rw [pyListIndex_not_mem h]
    | inr h =>
      rw [pyListIndex_not_mem h]
      cases pyListIndex rel default_x <;> rfl

/-- C6 (witness): the error branch applied to a concrete indicator list
missing both defaults. -/
theorem relationshipDefaults_spec_witness :
    (default_x ∉ (["Fertility Rate"] : List String) ∨
      default_y ∉ (["Fertility Rate"] : List String)) ∧
    relationshipDefaults ["Fertility Rate"] = none :=
  ⟨Or.inl (by decide),
    relationshipDefaults_spec.2 ["Fertility Rate"] (Or.inl (by decide))⟩

/-- C7: over a series with minimum `mn` and maximum `mx`, the
normalization returns `(x - mn) / (mx - mn)` pointwise when the series
is not constant — so every output lies in `[0, 1]` — and returns the
series unchanged when `mx - mn = 0`, never dividing by zero. -/
theorem min_max_normalize_spec (data : List ℚ) (mn mx : ℚ)
    (hmn : data.min? = some mn) (hmx : data.max? = some mx) :
    (mx - mn ≠ 0 →
      min_max_normalize data = data.map (fun x => (x - mn) / (mx - mn)) ∧
      ∀ y ∈ min_max_normalize data, 0 ≤ y ∧ y ≤ 1) ∧
    (mx - mn = 0 → min_max_normalize data = data) := by
  obtain ⟨hmnMem, hmnLe⟩ := min?_mem_le hmn
  obtain ⟨hmxMem, hmxGe⟩ := max?_mem_ge hmx
  constructor
  · intro hne
    have heq : min_max_normalize data = data.map (fun x => (x - mn) / (mx - mn)) := by
      unfold min_max_normalize
      rw [hmn, hmx]
      show (if mx - mn = 0 then data
        else data.map (fun x => (x - mn) / (mx - mn))) = _
      rw [if_neg hne]
    refine ⟨heq, ?_⟩
    have hlemm : mn ≤ mx := hmnLe mx hmxMem
    have hmnne : mn ≠ mx := fun hh => hne (by rw [hh, sub_self])
    have hlt : 0 < mx - mn := sub_pos.mpr (lt_of_le_of_ne hlemm hmnne)
    intro y hy
    rw [heq] at hy
    obtain ⟨x, hxmem, rfl⟩ := List.mem_map.mp hy
    constructor
    · have := hmnLe x hxmem
      apply div_nonneg _ (le_of_lt hlt)
      linarith
    · rw [div_le_one hlt]
      have := hmxGe x hxmem
      linarith
  · intro he
    unfold min_max_normalize
    rw [hmn, hmx]
    show (if mx - mn = 0 then data
      else data.map (fun x => (x - mn) / (mx - mn))) = _
    rw [if_pos he]

/-- C7 (witness): the constant-series branch applied to the concrete
series `[5, 5]`, which is returned unchanged. -/
theorem min_max_normalize_spec_witness :
    ((5 : ℚ) - 5 = 0) ∧ min_max_normalize [(5 : ℚ), 5] = [(5 : ℚ), 5] :=
  ⟨by norm_num,
    (min_max_normalize_spec [(5 : ℚ), 5] 5 5
      (by with_unfolding_all rfl) (by with_unfolding_all rfl)).2 (by norm_num)⟩

/-- C8: `format_large_numbers` scales to the largest applicable unit —
`/ 1e9` with suffix `Billion` for values at least `1e9`, `/ 1e6` with
`Million` below that down to `1e6`, `/ 1e3` with `Thousand` below that
down to `1e3`, and the raw value otherwise — always with two decimal
digits, matching the four documented examples. -/
theorem format_large_numbers_spec :
    (∀ v : ℚ, v ≥ 1000000000 →
      format_large_numbers v = fmt2 (v / 1000000000) ++ " Billion") ∧
    (∀ v : ℚ, v ≥ 1000000 → v < 1000000000 →
      format_large_numbers v = fmt2 (v / 1000000) ++ " Million") ∧
    (∀ v : ℚ, v ≥ 1000 → v < 1000000 →
      format_large_numbers v = fmt2 (v / 1000) ++ " Thousand") ∧
    (∀ v : ℚ, v < 1000 → format_large_numbers v = fmt2 v) ∧
    format_large_numbers 2500000000 = "2.50 Billion" ∧
    format_large_numbers 3400000 = "3.40 Million" ∧
    format_large_numbers 5200 = "5.20 Thousand" ∧
    format_large_numbers 42 = "42.00" := by
  refine ⟨?_, ?_, ?_, ?_, by with_unfolding_all decide,
    by with_unfolding_all decide, by with_unfolding_all decide,
    by with_unfolding_all decide⟩
  · intro v h
    unfold format_large_numbers
    rw [if_pos h]
  · intro v h1 h2
    unfold format_large_numbers
    rw [if_neg (not_le.mpr h2), if_pos h1]
  · intro v h1 h2
    unfold format_large_numbers
    rw [if_neg (not_le.mpr (lt_trans h2 (by norm_num))), if_neg (not_le.mpr h2),
      if_pos h1]
  · intro v h
    unfold format_large_numbers
    rw [if_neg (not_le.mpr (lt_trans h (by norm_num))),
      if_neg (not_le.mpr (lt_trans h (by norm_num))), if_neg (not_le.mpr h)]

/-- C8 (witness): the billion branch applied at the concrete value
`2e9`. -/
theorem format_large_numbers_spec_witness :
    ((2000000000 : ℚ) ≥ 1000000000) ∧
    format_large_numbers 2000000000 =
      fmt2 ((2000000000 : ℚ) / 1000000000) ++ " Billion" :=
  ⟨by norm_num, format_large_numbers_spec.1 2000000000 (by norm_num)⟩

/-- C9: `end_before_start` returns `True` exactly when the start year
exceeds the end year (`2005, 2000 → True`; `2000, 2005 → False`), and
`main` renders only the validation message in exactly that case,
rendering the dashboard views otherwise. -/
theorem end_before_start_spec :
    (∀ s e : ℤ, end_before_start s e = true ↔ s > e) ∧
    end_before_start 2005 2000 = true ∧
    end_before_start 2000 2005 = false ∧
    (∀ s e : ℤ, mainView s e = MainView.validationMessage ↔ s > e) ∧
    (∀ s e : ℤ, mainView s e = MainView.dashboard ↔ ¬s > e) := by
  refine ⟨?_, by decide, by decide, ?_, ?_⟩
  · intro s e
    simp [end_before_start]
  · intro s e
    by_cases h : s > e <;> simp [mainView, end_before_start, h]
  · intro s e
    by_cases h : s > e <;> simp [mainView, end_before_start, h]

/-- C9 (witness): the characterization instantiated at the documented
example years 2005 and 2000. -/
theorem end_before_start_spec_witness :
    end_before_start 2005 2000 = true ↔ (2005 : ℤ) > 2000 :=
  end_before_start_spec.1 2005 2000

/-- C10: every negative value falls through all three unit thresholds of
`format_large_numbers` and is rendered as the raw value with two decimal
digits and no suffix; in particular `-2.5e9` renders as
`"-2500000000.00"`, not `"-2.50 Billion"`. -/
theorem format_large_numbers_negative_spec :
    (∀ v : ℚ, v < 0 → format_large_numbers v = fmt2 v) ∧
    format_large_numbers (-2500000000) = "-2500000000.00" := by
  constructor
  · intro v h
    unfold format_large_numbers
    rw [if_neg (not_le.mpr (lt_trans h (by norm_num))),
      if_neg (not_le.mpr (lt_trans h (by norm_num))),
      if_neg (not_le.mpr (lt_trans h (by norm_num)))]
  · with_unfolding_all decide

/-- C10 (witness): the negative branch applied at the concrete value
`-1`. -/
theorem format_large_numbers_negative_spec_witness :
    ((-1 : ℚ) < 0) ∧ format_large_numbers (-1) = fmt2 (-1) :=
  ⟨by norm_num, format_large_numbers_negative_spec.1 (-1) (by norm_num)⟩

end Nigeria
